import Mathlib

/-!
Verification development for the mirror fan-out engine of the destiny-director
repository (module `dd/beacon/modules/mirror.py`).

Python dictionaries are modelled as association lists of key/value pairs in
insertion order.  Mutating methods that can raise (`d[k] += 1` on a missing
key raises `KeyError`, `d.pop(k)` raises `KeyError`, the tracker's
`report_scheduled` raises `ValueError` on a duplicate) are modelled with a
result type that carries the exception *and* the state at the moment it was
raised, since Python mutations performed before the raise persist.
-/

/-- Python `d.get`-style lookup on an association list: the value of the first
pair whose key equals `k`. -/
def dget? {α β : Type} [DecidableEq α] (d : List (α × β)) (k : α) : Option β :=
  match d with
  | [] => none
  | p :: rest => if p.fst = k then some p.snd else dget? rest k

/-- Python `k in d`. -/
def dcontains {α β : Type} [DecidableEq α] (d : List (α × β)) (k : α) : Bool :=
  (dget? d k).isSome

/-- Lookup with a default value. -/
def dgetD {α β : Type} [DecidableEq α] (d : List (α × β)) (k : α) (v0 : β) : β :=
  (dget? d k).getD v0

/-- Python `d[k] = v`: overwrite in place when the key is present, append
otherwise. -/
def dset {α β : Type} [DecidableEq α] (d : List (α × β)) (k : α) (v : β) : List (α × β) :=
  if dcontains d k then d.map (fun p => if p.fst = k then (p.fst, v) else p)
  else d ++ [(k, v)]

/-- Python `d.pop(k)`'s removal effect. -/
def derase {α β : Type} [DecidableEq α] (d : List (α × β)) (k : α) : List (α × β) :=
  d.filter (fun p => decide (p.fst ≠ k))

/-- Python `d.update(other)`. -/
def dupdate {α β : Type} [DecidableEq α] (d other : List (α × β)) : List (α × β) :=
  other.foldl (fun acc p => dset acc p.fst p.snd) d

/-- Python `d.keys()`. -/
def dkeys {α β : Type} (d : List (α × β)) : List α := d.map Prod.fst

/-- `MirrorOperationType` enum (mirror.py lines 65-70). -/
inductive MirrorOperationType where
  | SEND
  | UPDATE
  | DELETE
deriving DecidableEq

/-- The Python exception classes that the modelled code can raise. -/
inductive PyExn where
  | keyError
  | valueError
  | typeError
  | nameError
deriving DecidableEq

/-- Result of a Python method call on mutable state: either a normal return
with the new state, or an exception together with the state at the moment of
the raise (mutations made before the raise persist). -/
inductive PyResult (σ : Type) where
  | ok : σ → PyResult σ
  | exn : PyExn → σ → PyResult σ
deriving DecidableEq

/-- The state carried by a `PyResult`, whether or not an exception was
raised. -/
def PyResult.state {σ : Type} : PyResult σ → σ
  | .ok s => s
  | .exn _ s => s

/-- `KernelWorkTracker` (mirror.py lines 121-226): per-operation bookkeeping.
`mirror_operation_type` is set in the tracker's `__init__`.  The dictionaries
`_targets`, `_tries`, `_completed_successfully`, `_scheduled` and `cancelled`
are the five mutable maps of the class. -/
structure KernelWorkTracker where
  retry_threshold : Nat
  source_channel_id : Option Nat
  source_message_id : Nat
  mirror_operation_type : MirrorOperationType
  targets : List (Nat × Option Nat)
  tries : List (Nat × Nat)
  completed_successfully : List (Nat × Nat)
  scheduled : List (Nat × Option Nat)
  cancelled : List (Nat × Option Nat)
deriving DecidableEq

/-- `KernelWorkTracker.__init__` (mirror.py lines 128-145): `_tries` starts as
`{target_id: 0 for target_id in targets}` and the remaining maps start
empty. -/
def KernelWorkTracker.init (source_channel_id : Option Nat) (source_message_id : Nat)
    (targets : List (Nat × Option Nat)) (mirror_operation_type : MirrorOperationType)
    (retry_threshold : Nat) : KernelWorkTracker :=
  { retry_threshold := retry_threshold
    source_channel_id := source_channel_id
    source_message_id := source_message_id
    mirror_operation_type := mirror_operation_type
    targets := targets
    tries := targets.map (fun p => (p.fst, 0))
    completed_successfully := []
    scheduled := []
    cancelled := [] }

/-- `self._tries[channel_id]`: by construction `_tries` has exactly the keys of
`_targets`, so the default 0 is never consulted on the keys the views
iterate. -/
def triesD (t : KernelWorkTracker) (channel_id : Nat) : Nat :=
  dgetD t.tries channel_id 0

/-- `KernelWorkTracker.report_scheduled` (lines 151-161): raises `ValueError`
when the target is already scheduled, otherwise records it. -/
def report_scheduled (t : KernelWorkTracker) (channel_id : Nat) (message_id : Option Nat) :
    PyResult KernelWorkTracker :=
  if dcontains t.scheduled channel_id then .exn .valueError t
  else .ok { t with scheduled := dset t.scheduled channel_id message_id }

/-- `KernelWorkTracker._report_try` (lines 147-149): `self._tries[channel_id] += 1`
raises `KeyError` when the channel is not a key of `_tries`; the increment
happens first, then `self._scheduled.pop(channel_id)` raises `KeyError` when
the channel is not scheduled — in that case the increment has already been
applied. -/
def report_try (t : KernelWorkTracker) (channel_id : Nat) : PyResult KernelWorkTracker :=
  match dget? t.tries channel_id with
  | none => .exn .keyError t
  | some n =>
    let t1 := { t with tries := dset t.tries channel_id (n + 1) }
    if dcontains t1.scheduled channel_id then
      .ok { t1 with scheduled := derase t1.scheduled channel_id }
    else
      .exn .keyError t1

/-- `KernelWorkTracker.report_completed` (lines 163-165). -/
def report_completed (t : KernelWorkTracker) (channel_id : Nat) (message_id : Nat) :
    PyResult KernelWorkTracker :=
  match report_try t channel_id with
  | .ok t1 =>
      .ok { t1 with completed_successfully := dset t1.completed_successfully channel_id message_id }
  | .exn e t1 => .exn e t1

/-- `KernelWorkTracker.report_failure` (lines 167-168). -/
def report_failure (t : KernelWorkTracker) (channel_id : Nat) : PyResult KernelWorkTracker :=
  report_try t channel_id

/-- `KernelWorkTracker.failed_targets` (lines 170-177): targets whose try count
reached the retry threshold. -/
def failed_targets (t : KernelWorkTracker) : List (Nat × Option Nat) :=
  t.targets.filter (fun p => decide (t.retry_threshold ≤ triesD t p.fst))

/-- `KernelWorkTracker.successful_targets` (lines 179-181). -/
def successful_targets (t : KernelWorkTracker) : List (Nat × Nat) :=
  t.completed_successfully

/-- `KernelWorkTracker._targets_tried_at_least_once` (lines 183-189). -/
def targets_tried_at_least_once (t : KernelWorkTracker) : List (Nat × Option Nat) :=
  (t.tries.filter (fun p => decide (0 < p.snd))).map
    (fun p => (p.fst, dgetD t.targets p.fst none))

/-- `KernelWorkTracker.targets_not_yet_tried` (lines 191-197). -/
def targets_not_yet_tried (t : KernelWorkTracker) : List (Nat × Option Nat) :=
  (t.tries.filter (fun p => decide (p.snd = 0))).map
    (fun p => (p.fst, dgetD t.targets p.fst none))

/-- `KernelWorkTracker.is_every_target_tried` (lines 199-201). -/
def is_every_target_tried (t : KernelWorkTracker) : Bool :=
  decide ((targets_tried_at_least_once t).length = t.targets.length)

/-- `KernelWorkTracker.targets_to_schedule` (lines 203-212). -/
def targets_to_schedule (t : KernelWorkTracker) : List (Nat × Option Nat) :=
  t.targets.filter (fun p =>
    !dcontains t.scheduled p.fst &&
    !dcontains (failed_targets t) p.fst &&
    !dcontains (successful_targets t) p.fst &&
    !dcontains t.cancelled p.fst)

/-- `KernelWorkTracker.targets_being_retried` (lines 214-222). -/
def targets_being_retried (t : KernelWorkTracker) : List (Nat × Option Nat) :=
  t.targets.filter (fun p =>
    dcontains (targets_tried_at_least_once t) p.fst &&
    !dcontains (failed_targets t) p.fst &&
    !dcontains (successful_targets t) p.fst)

/-- `KernelWorkTracker.is_work_left_to_do` (lines 224-226): truthiness of
`self.targets_to_schedule or self._scheduled`. -/
def is_work_left_to_do (t : KernelWorkTracker) : Bool :=
  !(targets_to_schedule t).isEmpty || !t.scheduled.isEmpty

/-- State effect of `KernelWorkControl.cancel` (mirror.py lines 272-279):
`cancelled.update(_scheduled)`, then `cancelled.update(targets_to_schedule)`
(computed against the already-extended cancelled map), then
`_scheduled.clear()`.  The `task.cancel()` loop over asyncio tasks performs no
tracker-state mutation and is not part of the state model. -/
def tracker_cancel (t : KernelWorkTracker) : KernelWorkTracker :=
  let t1 := { t with cancelled := dupdate t.cancelled t.scheduled }
  let t2 := { t1 with cancelled := dupdate t1.cancelled (targets_to_schedule t1) }
  { t2 with scheduled := [] }

/-- `KernelWorkControl` (mirror.py lines 229-248): the tracker plus the
per-destination role-mention map.  The `_kernel` callable and the `_tasks` set
are event-loop objects with no bearing on the tracked state and are not
modelled as data. -/
structure KernelWorkControl where
  tracker : KernelWorkTracker
  role_ping_per_ch_id : List (Nat × Option Nat)
deriving DecidableEq

/-- `KernelWorkControl.cancel` (lines 272-279) as seen from the tracker
state. -/
def KernelWorkControl.cancel (c : KernelWorkControl) : KernelWorkControl :=
  { c with tracker := tracker_cancel c.tracker }

/-- The process-wide registry `{(source_channel_id, source_message_id):
KernelWorkControl}` (mirror.py lines 73-84).  The delete driver uses the key
`(None, msg_id)`, so the channel component is optional. -/
abbrev KernelWorkControlRegistry := List ((Option Nat × Nat) × KernelWorkControl)

/-- `KernelWorkControlRegistry.register` (lines 86-97): raises `ValueError`
and leaves the registry unchanged when the key is already present, inserts
otherwise. -/
def KernelWorkControlRegistry.register (r : KernelWorkControlRegistry)
    (control : KernelWorkControl) : PyResult KernelWorkControlRegistry :=
  let key := (control.tracker.source_channel_id, control.tracker.source_message_id)
  if dcontains r key then .exn .valueError r
  else .ok (dset r key control)

/-- Outcome of `KernelWorkControlRegistry.cancel`: either of the two
`ValueError`s of lines 108-115, or a successful cancellation.  The control
carried by `cannotCancelNonUpdate` is the popped control, untouched;
`cancelled` carries the control after its `cancel()` ran. -/
inductive RegistryCancelOutcome where
  | noOperationInProgress
  | cannotCancelNonUpdate (control : KernelWorkControl)
  | cancelled (control : KernelWorkControl)
deriving DecidableEq

/-- `KernelWorkControlRegistry.cancel` (lines 99-115): the entry is popped
first; only then is the operation type checked, and `control.cancel()` runs
only for `UPDATE` operations. -/
def KernelWorkControlRegistry.cancel (r : KernelWorkControlRegistry)
    (source_channel_id : Option Nat) (source_message_id : Nat) :
    KernelWorkControlRegistry × RegistryCancelOutcome :=
  let key := (source_channel_id, source_message_id)
  match dget? r key with
  | some control =>
    let r1 := derase r key
    if control.tracker.mirror_operation_type ≠ .UPDATE then
      (r1, .cannotCancelNonUpdate control)
    else
      (r1, .cancelled control.cancel)
  | none => (r, .noOperationInProgress)

/-- Error classes of the chat-platform client (spec section 6): `NotFound`,
`Forbidden`, `BadRequest` and generic transient errors.  A platform call in a
kernel either returns a value or raises one of these. -/
inductive PlatformError where
  | notFound
  | forbidden
  | badRequest
  | transient
deriving DecidableEq

/-- The channel object returned by `bot.fetch_channel` as far as the send
kernel inspects it. -/
structure FetchedChannel where
  textable : Bool
  is_news : Bool
deriving DecidableEq

/-- The message object returned by `bot.fetch_message` / `channel.send` as far
as the kernels inspect it. -/
structure FetchedMessage where
  id : Nat
  channel_id : Nat
deriving DecidableEq

/-- A tracker-reporting call made by a kernel. -/
inductive ReportEvent where
  | scheduledEv (channel_id : Nat)
  | completedEv (channel_id : Nat) (message_id : Nat)
  | failureEv (channel_id : Nat)
deriving DecidableEq

/-- Whether a kernel invocation returned normally or let an exception escape
its boundary. -/
inductive KernelOutcome where
  | normal
  | escaped (e : PyExn)
deriving DecidableEq

/-- Result of one kernel invocation: the tracker state afterwards, the
tracker-reporting calls made (in order), and whether an exception escaped. -/
structure KernelRun where
  tracker : KernelWorkTracker
  events : List ReportEvent
  outcome : KernelOutcome
deriving DecidableEq

/-- The `except` path shared by the kernels: `control.report_failure(ch)` runs
inside the handler, so an exception it raises escapes the kernel. -/
def kernel_fail_path (t : KernelWorkTracker) (evs : List ReportEvent) (channel_id : Nat) :
    KernelRun :=
  match report_failure t channel_id with
  | .ok t2 => ⟨t2, evs ++ [.failureEv channel_id], .normal⟩
  | .exn e t2 => ⟨t2, evs ++ [.failureEv channel_id], .escaped e⟩

/-- The `else` path shared by the kernels: `report_completed` runs outside the
`try`, so an exception it raises escapes the kernel. -/
def kernel_complete_path (t : KernelWorkTracker) (evs : List ReportEvent)
    (channel_id message_id : Nat) : KernelRun :=
  match report_completed t channel_id message_id with
  | .ok t2 => ⟨t2, evs ++ [.completedEv channel_id message_id], .normal⟩
  | .exn e t2 => ⟨t2, evs ++ [.completedEv channel_id message_id], .escaped e⟩

/-- The send kernel of `message_create_repeater_impl` (mirror.py lines
650-718).  `report_scheduled` runs before the `try`; inside the `try` the
kernel fetches the destination channel (a non-textable channel raises
`ValueError` into the same handler) and sends the message; any exception is
caught and converted to `report_failure`; on success `report_completed` runs
in the `else` block.  The trailing crosspost loop (lines 693-718) catches
every exception it can raise and makes no tracker call, so it contributes
nothing to the tracker state or the outcome. -/
def message_create_kernel (fetch_channel_result : Except PlatformError FetchedChannel)
    (send_result : Except PlatformError FetchedMessage)
    (control : KernelWorkTracker) (ch_id : Nat) : KernelRun :=
  match report_scheduled control ch_id none with
  | .exn e t1 => ⟨t1, [.scheduledEv ch_id], .escaped e⟩
  | .ok t1 =>
    match fetch_channel_result with
    | .error _ => kernel_fail_path t1 [.scheduledEv ch_id] ch_id
    | .ok channel =>
      if !channel.textable then kernel_fail_path t1 [.scheduledEv ch_id] ch_id
      else
        match send_result with
        | .error _ => kernel_fail_path t1 [.scheduledEv ch_id] ch_id
        | .ok mirrored_msg => kernel_complete_path t1 [.scheduledEv ch_id] ch_id mirrored_msg.id

/-- The update kernel of `message_update_repeater_impl` (mirror.py lines
810-843): fetch the destination message, edit it; any exception in the `try`
becomes `report_failure(ch_id)`; success becomes
`report_completed(ch_id, msg_id)`. -/
def message_update_kernel (fetch_message_result : Except PlatformError FetchedMessage)
    (edit_result : Except PlatformError Unit)
    (control : KernelWorkTracker) (ch_id msg_id : Nat) : KernelRun :=
  match report_scheduled control ch_id (some msg_id) with
  | .exn e t1 => ⟨t1, [.scheduledEv ch_id], .escaped e⟩
  | .ok t1 =>
    match fetch_message_result with
    | .error _ => kernel_fail_path t1 [.scheduledEv ch_id] ch_id
    | .ok _ =>
      match edit_result with
      | .error _ => kernel_fail_path t1 [.scheduledEv ch_id] ch_id
      | .ok _ => kernel_complete_path t1 [.scheduledEv ch_id] ch_id msg_id

/-- The delete kernel of `message_delete_repeater_impl` (mirror.py lines
894-917).  Its `except` handler calls
`tracker.report_failure(dest_msg.channel_id)`: when the *fetch* of the
destination message is what raised, the local variable `dest_msg` was never
bound, so evaluating `dest_msg.channel_id` inside the handler raises
`UnboundLocalError` (a `NameError`) out of the kernel and no report is made.
When the fetch succeeded, failure and success reports use the fetched
message's `channel_id` field. -/
def message_delete_kernel (fetch_message_result : Except PlatformError FetchedMessage)
    (delete_result : Except PlatformError Unit)
    (tracker : KernelWorkTracker) (ch_id msg_id : Nat) : KernelRun :=
  match report_scheduled tracker ch_id (some msg_id) with
  | .exn e t1 => ⟨t1, [.scheduledEv ch_id], .escaped e⟩
  | .ok t1 =>
    match fetch_message_result with
    | .error _ => ⟨t1, [.scheduledEv ch_id], .escaped .nameError⟩
    | .ok dest_msg =>
      match delete_result with
      | .error _ => kernel_fail_path t1 [.scheduledEv ch_id] dest_msg.channel_id
      | .ok _ => kernel_complete_path t1 [.scheduledEv ch_id] dest_msg.channel_id msg_id

/-- How `message_update_repeater_impl` ends, once the destination mappings for
the source message are known. -/
inductive UpdateDriverResult where
  | returnedNoMappings
  | raisedTypeError (attempted_targets : List (Nat × Option Nat))
deriving DecidableEq

/-- Observable effects of one run of the update driver. -/
structure UpdateDriverRun where
  result : UpdateDriverResult
  kernels_launched : List Nat
  progress_message_created : Bool
  registry : KernelWorkControlRegistry
deriving DecidableEq

/-- The dict comprehension `{channel_id: dest_msg_id for dest_msg_id,
channel_id in msgs_to_update}` of mirror.py line 847: the repository returns
`(dest_msg_id, channel_id)` rows and the comprehension keys them by channel,
so a later row with the same destination channel silently overwrites an
earlier one. -/
def update_targets_of_mappings (msgs_to_update : List (Nat × Nat)) : List (Nat × Option Nat) :=
  msgs_to_update.foldl (fun acc p => dset acc p.snd (some p.fst)) []

/-- `message_update_repeater_impl` (mirror.py lines 785-862) after the mapping
lookup succeeded.  With no mappings it returns at line 792 before any tracker,
controller, kernel or progress message exists.  With mappings, it evaluates
the target dict and then calls `KernelWorkControl(source=..., targets=...,
mirror_operation_type=..., retry_threshold=2, kernel=kernel)` (lines 845-851)
— but `KernelWorkControl.__init__` (lines 230-238) declares
`role_ping_per_ch_id` as a required positional parameter and this call site
never passes it, so Python raises `TypeError` before the controller body runs:
nothing is registered, no kernel is launched and no progress message is
posted. -/
def message_update_repeater_impl (msgs_to_update : List (Nat × Nat))
    (r : KernelWorkControlRegistry) : UpdateDriverRun :=
  match msgs_to_update with
  | [] => ⟨.returnedNoMappings, [], false, r⟩
  | _ :: _ => ⟨.raisedTypeError (update_targets_of_mappings msgs_to_update), [], false, r⟩

/-- One tracker-mutating call, as issued by kernels and by cancellation. -/
inductive TrackerOp where
  | scheduleOp (channel_id : Nat) (message_id : Option Nat)
  | completeOp (channel_id : Nat) (message_id : Nat)
  | failOp (channel_id : Nat)
  | cancelOp
deriving DecidableEq

/-- Apply one call to a tracker, keeping the state that results even when the
call raised (Python mutations made before a raise persist). -/
def applyOp (t : KernelWorkTracker) : TrackerOp → KernelWorkTracker
  | .scheduleOp ch m => (report_scheduled t ch m).state
  | .completeOp ch m => (report_completed t ch m).state
  | .failOp ch => (report_failure t ch).state
  | .cancelOp => tracker_cancel t

/-- Apply a sequence of calls. -/
def applyOps (t : KernelWorkTracker) (ops : List TrackerOp) : KernelWorkTracker :=
  ops.foldl applyOp t

/-- The controller contract for a single call: `run_till_completion` only
launches kernels for members of `targets_to_schedule`, and a kernel only
reports completion or failure for a target it scheduled and that is still
scheduled; cancellation may happen at any time. -/
def opOK (t : KernelWorkTracker) : TrackerOp → Bool
  | .scheduleOp ch _ => dcontains (targets_to_schedule t) ch
  | .completeOp ch _ => dcontains t.scheduled ch
  | .failOp ch => dcontains t.scheduled ch
  | .cancelOp => true

/-- A call sequence respects the controller contract when every call respects
it in the state where it is issued. -/
def contractOps (t : KernelWorkTracker) : List TrackerOp → Bool
  | [] => true
  | op :: ops => opOK t op && contractOps (applyOp t op) ops

/-- Reachability invariant of `KernelWorkTracker` under the controller
contract: `_tries` has duplicate-free keys and the same key set as
`_targets`; a completed target is a target tried at least once; a scheduled
target is a live target (below the threshold, not completed, not cancelled);
a cancelled target is a target that was live when it was cancelled and whose
try counter can no longer move. -/
def TrackerInv (t : KernelWorkTracker) : Prop :=
  (dkeys t.tries).Nodup ∧
  (∀ ch, dcontains t.tries ch = true ↔ dcontains t.targets ch = true) ∧
  (∀ ch, dcontains t.completed_successfully ch = true →
      dcontains t.targets ch = true ∧ 1 ≤ triesD t ch) ∧
  (∀ ch, dcontains t.scheduled ch = true →
      dcontains t.targets ch = true ∧ triesD t ch < t.retry_threshold ∧
      dcontains t.completed_successfully ch = false ∧ dcontains t.cancelled ch = false) ∧
  (∀ ch, dcontains t.cancelled ch = true →
      dcontains t.targets ch = true ∧ triesD t ch < t.retry_threshold ∧
      dcontains t.completed_successfully ch = false)

/-- The five observation sets of a tracker — succeeded, permanently failed,
cancelled, not yet tried, being retried — cover the target set exactly, and
all pairs of them are disjoint except the three pairs the implementation does
not separate: succeeded/failed, not-yet-tried/cancelled and
being-retried/cancelled. -/
def sets_cover_and_disjoint (t : KernelWorkTracker) : Prop :=
  (∀ ch, dcontains t.targets ch = true ↔
      (dcontains (targets_not_yet_tried t) ch = true ∨
       dcontains (targets_being_retried t) ch = true ∨
       dcontains (failed_targets t) ch = true ∨
       dcontains (successful_targets t) ch = true ∨
       dcontains t.cancelled ch = true)) ∧
  (∀ ch, ¬(dcontains (targets_not_yet_tried t) ch = true ∧
           dcontains (targets_being_retried t) ch = true)) ∧
  (∀ ch, ¬(dcontains (targets_not_yet_tried t) ch = true ∧
           dcontains (failed_targets t) ch = true)) ∧
  (∀ ch, ¬(dcontains (targets_not_yet_tried t) ch = true ∧
           dcontains (successful_targets t) ch = true)) ∧
  (∀ ch, ¬(dcontains (targets_being_retried t) ch = true ∧
           dcontains (failed_targets t) ch = true)) ∧
  (∀ ch, ¬(dcontains (targets_being_retried t) ch = true ∧
           dcontains (successful_targets t) ch = true)) ∧
  (∀ ch, ¬(dcontains (failed_targets t) ch = true ∧
           dcontains t.cancelled ch = true)) ∧
  (∀ ch, ¬(dcontains (successful_targets t) ch = true ∧
           dcontains t.cancelled ch = true))

/-- Starting tracker for the disjointness counterexample: an update operation
with `retry_threshold = 2` over three destination channels. -/
def c1_start : KernelWorkTracker :=
  KernelWorkTracker.init (some 1) 2 [(1, none), (2, none), (3, none)]
    MirrorOperationType.UPDATE 2

/-- A contract-respecting trace: channel 1 fails once and then completes on
its second (threshold-th) attempt; channel 2 fails once and is scheduled
again; then the whole operation is cancelled while channel 2 is in flight and
channel 3 has not been tried. -/
def c1_trace : List TrackerOp :=
  [.scheduleOp 1 none, .failOp 1, .scheduleOp 1 none, .completeOp 1 42,
   .scheduleOp 2 none, .failOp 2, .scheduleOp 2 none, .cancelOp]

/-- One failing round for a target under the controller contract: the
controller schedules it, the kernel fails and reports the failure. -/
def fail_cycle (ch : Nat) : List TrackerOp := [.scheduleOp ch none, .failOp ch]

/-- Whether a reporting call is a terminal one (completion or failure). -/
def ReportEvent.isTerminal : ReportEvent → Bool
  | .scheduledEv _ => false
  | .completedEv _ _ => true
  | .failureEv _ => true

/-- Number of terminal reporting calls a kernel made. -/
def reports_terminal (evs : List ReportEvent) : Nat :=
  (evs.filter ReportEvent.isTerminal).length

/-- Whether a Python call raised. -/
def PyResult.raised {σ : Type} : PyResult σ → Bool
  | .ok _ => false
  | .exn _ _ => true

/-- A mid-run update tracker: channel 1 is scheduled, channel 2 is still
schedulable. -/
def c6_t : KernelWorkTracker :=
  applyOps (KernelWorkTracker.init (some 5) 6 [(1, none), (2, none)]
    MirrorOperationType.UPDATE 2) [.scheduleOp 1 (some 7)]

/-- Fresh single-target tracker used for the C10 refutation: channel 7 is a
target but has never been reported scheduled. -/
def c10_t : KernelWorkTracker :=
  KernelWorkTracker.init (some 1) 2 [(7, none)] MirrorOperationType.SEND 3

/-- A registered update controller over one destination, used as witness
material for the registry claims. -/
def c7_control : KernelWorkControl :=
  { tracker := KernelWorkTracker.init (some 3) 4 [(8, some 9)]
      MirrorOperationType.UPDATE 2
    role_ping_per_ch_id := [] }

/-- Fresh delete tracker for the kernel-boundary refutation: channel 3 maps to
destination message 4. -/
def c2_t : KernelWorkTracker :=
  KernelWorkTracker.init none 2 [(3, some 4)] MirrorOperationType.DELETE 2

/-- Fresh delete tracker for the idempotent-deletion claim: channel 5 maps to
destination message 6. -/
def c3_t : KernelWorkTracker :=
  KernelWorkTracker.init none 8 [(5, some 6)] MirrorOperationType.DELETE 2

theorem dget?_append_of_some {α β : Type} [DecidableEq α] {d1 d2 : List (α × β)} {k : α}
    {v : β} (h : dget? d1 k = some v) : dget? (d1 ++ d2) k = some v := by
  induction d1 with
  | nil => simp [dget?] at h
  | cons p rest ih =>
    rw [List.cons_append, dget?] at *
    split at h
    case isTrue hk => rw [if_pos hk]; exact h
    case isFalse hk => rw [if_neg hk]; exact ih h

theorem dget?_append_of_none {α β : Type} [DecidableEq α] {d1 d2 : List (α × β)} {k : α}
    (h : dget? d1 k = none) : dget? (d1 ++ d2) k = dget? d2 k := by
  induction d1 with
  | nil => simp
  | cons p rest ih =>
    rw [List.cons_append, dget?] at *
    split at h
    case isTrue hk => exact absurd h (by simp)
    case isFalse hk => rw [if_neg hk]; exact ih h

theorem mem_of_dget?_eq_some {α β : Type} [DecidableEq α] {d : List (α × β)} {k : α} {v : β}
    (h : dget? d k = some v) : (k, v) ∈ d := by
  induction d with
  | nil => simp [dget?] at h
  | cons p rest ih =>
    rw [dget?] at h
    split at h
    case isTrue hk =>
      have hv : p.snd = v := by injection h
      have : p = (k, v) := by
        cases p with
        | mk a b => simp_all
      simp [this]
    case isFalse hk => exact List.mem_cons_of_mem _ (ih h)

theorem mem_dkeys_of_mem {α β : Type} {d : List (α × β)} {k : α} {v : β}
    (h : (k, v) ∈ d) : k ∈ dkeys d := by
  exact List.mem_map.mpr ⟨(k, v), h, rfl⟩

theorem dcontains_of_mem {α β : Type} [DecidableEq α] {d : List (α × β)} {k : α} {v : β}
    (h : (k, v) ∈ d) : dcontains d k = true := by
  induction d with
  | nil => simp at h
  | cons p rest ih =>
    rcases List.mem_cons.mp h with h1 | h1
    · simp [dcontains, dget?, ← h1]
    · by_cases hk : p.fst = k
      · simp [dcontains, dget?, hk]
      · simpa [dcontains, dget?, hk] using ih h1

theorem dcontains_iff_exists_mem {α β : Type} [DecidableEq α] {d : List (α × β)} {k : α} :
    dcontains d k = true ↔ ∃ v, (k, v) ∈ d := by
  constructor
  · intro h
    rcases Option.isSome_iff_exists.mp h with ⟨v, hv⟩
    exact ⟨v, mem_of_dget?_eq_some hv⟩
  · rintro ⟨v, hv⟩
    exact dcontains_of_mem hv

theorem dget?_eq_some_of_mem_nodup {α β : Type} [DecidableEq α] {d : List (α × β)} {k : α}
    {v : β} (nd : (dkeys d).Nodup) (h : (k, v) ∈ d) : dget? d k = some v := by
  induction d with
  | nil => simp at h
  | cons p rest ih =>
    have nd1 : p.fst ∉ dkeys rest := by
      have := (List.nodup_cons.mp nd).1
      simpa [dkeys] using this
    have nd2 : (dkeys rest).Nodup := (List.nodup_cons.mp nd).2
    rcases List.mem_cons.mp h with h1 | h1
    · rw [← h1]
      simp [dget?]
    · by_cases hk : p.fst = k
      · exact absurd (hk ▸ mem_dkeys_of_mem h1) nd1
      · rw [dget?, if_neg hk]
        exact ih nd2 h1

theorem dget?_map_keyset_eq {α β : Type} [DecidableEq α] (d : List (α × β)) (k k' : α)
    (v : β) (hne : k' ≠ k) :
    dget? (d.map (fun p => if p.fst = k then (p.fst, v) else p)) k' = dget? d k' := by
  induction d with
  | nil => simp
  | cons p rest ih =>
    obtain ⟨a, b⟩ := p
    by_cases hk : a = k
    · subst hk
      have h1 : a ≠ k' := fun h => hne h.symm
      simp [dget?, h1, ih]
    · by_cases h1 : a = k'
      · subst h1
        simp [dget?, hk]
      · simp [dget?, hk, h1, ih]

theorem dget?_map_keyset_self {α β : Type} [DecidableEq α] (d : List (α × β)) (k : α)
    (v : β) :
    dget? (d.map (fun p => if p.fst = k then (p.fst, v) else p)) k
      = (dget? d k).map (fun _ => v) := by
  induction d with
  | nil => rfl
  | cons p rest ih =>
    obtain ⟨a, b⟩ := p
    by_cases hk : a = k
    · subst hk
      simp [dget?]
    · simp [dget?, hk, ih]

theorem dget?_singleton_ne {α β : Type} [DecidableEq α] (k k' : α) (v : β)
    (hne : k' ≠ k) : dget? [(k, v)] k' = none := by
  have h1 : ¬ k = k' := fun h => hne h.symm
  simp [dget?, h1]

theorem dget?_dset_self {α β : Type} [DecidableEq α] (d : List (α × β)) (k : α) (v : β) :
    dget? (dset d k v) k = some v := by
  unfold dset
  by_cases hc : dcontains d k = true
  · rw [if_pos hc, dget?_map_keyset_self]
    rcases Option.isSome_iff_exists.mp hc with ⟨w, hw⟩
    rw [hw]
    rfl
  · rw [if_neg hc]
    have : dget? d k = none := by
      rcases h : dget? d k with _ | w
      · rfl
      · exact absurd (by simp [dcontains, h]) hc
    rw [dget?_append_of_none this]
    simp [dget?]

theorem dget?_dset_ne {α β : Type} [DecidableEq α] (d : List (α × β)) (k k' : α) (v : β)
    (hne : k' ≠ k) : dget? (dset d k v) k' = dget? d k' := by
  unfold dset
  by_cases hc : dcontains d k = true
  · rw [if_pos hc, dget?_map_keyset_eq _ _ _ _ hne]
  · rw [if_neg hc]
    rcases h : dget? d k' with _ | w
    · rw [dget?_append_of_none h, dget?_singleton_ne _ _ _ hne]
    · rw [dget?_append_of_some h]

theorem dcontains_dset_iff {α β : Type} [DecidableEq α] (d : List (α × β)) (k k' : α)
    (v : β) : dcontains (dset d k v) k' = true ↔ k' = k ∨ dcontains d k' = true := by
  by_cases hk : k' = k
  · subst hk
    simp [dcontains, dget?_dset_self]
  · rw [dcontains, dget?_dset_ne _ _ _ _ hk]
    simp [dcontains, hk]

theorem dget?_derase_self {α β : Type} [DecidableEq α] (d : List (α × β)) (k : α) :
    dget? (derase d k) k = none := by
  induction d with
  | nil => rfl
  | cons p rest ih =>
    obtain ⟨a, b⟩ := p
    unfold derase at *
    by_cases hk : a = k
    · subst hk
      simpa [List.filter_cons] using ih
    · rw [List.filter_cons]
      rw [if_pos (by simp [hk])]
      rw [dget?, if_neg hk]
      exact ih

theorem dget?_derase_ne {α β : Type} [DecidableEq α] (d : List (α × β)) (k k' : α)
    (hne : k' ≠ k) : dget? (derase d k) k' = dget? d k' := by
  induction d with
  | nil => rfl
  | cons p rest ih =>
    obtain ⟨a, b⟩ := p
    unfold derase at *
    by_cases hk : a = k
    · subst hk
      have h1 : ¬ a = k' := fun h => hne h.symm
      rw [List.filter_cons]
      rw [if_neg (by simp)]
      rw [ih, dget?, if_neg h1]
    · rw [List.filter_cons]
      rw [if_pos (by simp [hk])]
      rw [dget?, dget?]
      by_cases h1 : a = k'
      · rw [if_pos h1, if_pos h1]
      · rw [if_neg h1, if_neg h1, ih]

theorem dcontains_derase_iff {α β : Type} [DecidableEq α] (d : List (α × β)) (k k' : α) :
    dcontains (derase d k) k' = true ↔ k' ≠ k ∧ dcontains d k' = true := by
  by_cases hk : k' = k
  · subst hk
    simp [dcontains, dget?_derase_self]
  · rw [dcontains, dget?_derase_ne _ _ _ hk]
    simp [dcontains, hk]

theorem dcontains_dupdate_iff {α β : Type} [DecidableEq α] (d o : List (α × β)) (k : α) :
    dcontains (dupdate d o) k = true ↔ dcontains d k = true ∨ dcontains o k = true := by
  induction o generalizing d with
  | nil => simp [dupdate, dcontains, dget?]
  | cons p rest ih =>
    have step : dupdate d (p :: rest) = dupdate (dset d p.fst p.snd) rest := rfl
    rw [step, ih, dcontains_dset_iff]
    have hcons : dcontains (p :: rest) k = true ↔ p.fst = k ∨ dcontains rest k = true := by
      by_cases h1 : p.fst = k
      · simp [dcontains, dget?, h1]
      · simp [dcontains, dget?, h1]
    rw [hcons]
    constructor
    · rintro ((h | h) | h)
      · exact Or.inr (Or.inl h.symm)
      · exact Or.inl h
      · exact Or.inr (Or.inr h)
    · rintro (h | (h | h))
      · exact Or.inl (Or.inr h)
      · exact Or.inl (Or.inl h.symm)
      · exact Or.inr h

theorem dcontains_filter_key {α β : Type} [DecidableEq α] (d : List (α × β)) (q : α → Bool)
    (k : α) :
    dcontains (d.filter (fun p => q p.fst)) k = true ↔ dcontains d k = true ∧ q k = true := by
  rw [dcontains_iff_exists_mem, dcontains_iff_exists_mem]
  constructor
  · rintro ⟨v, hv⟩
    rcases List.mem_filter.mp hv with ⟨h1, h2⟩
    exact ⟨⟨v, h1⟩, h2⟩
  · rintro ⟨⟨v, hv⟩, hq⟩
    exact ⟨v, List.mem_filter.mpr ⟨hv, hq⟩⟩

theorem dcontains_map_keyfun {α β γ : Type} [DecidableEq α] (d : List (α × β)) (f : α → γ)
    (k : α) :
    dcontains (d.map (fun p => (p.fst, f p.fst))) k = true ↔ dcontains d k = true := by
  rw [dcontains_iff_exists_mem, dcontains_iff_exists_mem]
  constructor
  · rintro ⟨w, hw⟩
    rcases List.mem_map.mp hw with ⟨p, hp, heq⟩
    have hk : p.fst = k := congrArg Prod.fst heq
    exact ⟨p.snd, by simpa [← hk] using hp⟩
  · rintro ⟨v, hv⟩
    exact ⟨f k, List.mem_map.mpr ⟨(k, v), hv, rfl⟩⟩

theorem dcontains_filter_val {α β : Type} [DecidableEq α] {d : List (α × β)} (q : β → Bool)
    {k : α} (nd : (dkeys d).Nodup) :
    dcontains (d.filter (fun p => q p.snd)) k = true
      ↔ ∃ v, dget? d k = some v ∧ q v = true := by
  rw [dcontains_iff_exists_mem]
  constructor
  · rintro ⟨v, hv⟩
    rcases List.mem_filter.mp hv with ⟨h1, h2⟩
    exact ⟨v, dget?_eq_some_of_mem_nodup nd h1, h2⟩
  · rintro ⟨v, hv, hq⟩
    exact ⟨v, List.mem_filter.mpr ⟨mem_of_dget?_eq_some hv, hq⟩⟩

theorem eq_nil_of_forall_not_dcontains {α β : Type} [DecidableEq α] {d : List (α × β)}
    (h : ∀ k, dcontains d k = false) : d = [] := by
  cases d with
  | nil => rfl
  | cons p rest =>
    have := h p.fst
    simp [dcontains, dget?] at this

theorem dkeys_dset_of_contains {α β : Type} [DecidableEq α] (d : List (α × β)) (k : α)
    (v : β) (hc : dcontains d k = true) : dkeys (dset d k v) = dkeys d := by
  unfold dset
  rw [if_pos hc]
  unfold dkeys
  rw [List.map_map]
  apply List.map_congr_left
  intro p _
  by_cases hk : p.fst = k
  · simp [hk]
  · simp [hk]

theorem not_mem_dkeys_of_not_dcontains {α β : Type} [DecidableEq α] {d : List (α × β)}
    {k : α} (h : ¬ dcontains d k = true) : k ∉ dkeys d := by
  intro hmem
  rcases List.mem_map.mp hmem with ⟨p, hp, hk⟩
  exact h (dcontains_of_mem (show (k, p.snd) ∈ d by cases p with | mk a b => simp_all))

theorem nodup_dkeys_dset {α β : Type} [DecidableEq α] {d : List (α × β)} (k : α) (v : β)
    (nd : (dkeys d).Nodup) : (dkeys (dset d k v)).Nodup := by
  by_cases hc : dcontains d k = true
  · rw [dkeys_dset_of_contains _ _ _ hc]
    exact nd
  · unfold dset
    rw [if_neg hc]
    unfold dkeys
    rw [List.map_append]
    simp only [List.map_cons, List.map_nil]
    rw [List.nodup_append]
    refine ⟨nd, List.nodup_singleton _, ?_⟩
    intro a ha hb
    have hak : a = k := by simpa using hb
    subst hak
    exact (not_mem_dkeys_of_not_dcontains hc) ha

theorem nodup_dkeys_derase {α β : Type} [DecidableEq α] {d : List (α × β)} (k : α)
    (nd : (dkeys d).Nodup) : (dkeys (derase d k)).Nodup := by
  have hsub : List.Sublist (derase d k) d := List.filter_sublist d
  exact List.Nodup.sublist (List.Sublist.map Prod.fst hsub) nd

theorem nodup_dkeys_dupdate {α β : Type} [DecidableEq α] {d : List (α × β)}
    (o : List (α × β)) (nd : (dkeys d).Nodup) : (dkeys (dupdate d o)).Nodup := by
  induction o generalizing d with
  | nil => exact nd
  | cons p rest ih => exact ih (nodup_dkeys_dset p.fst p.snd nd)

theorem bool_eq_false_of_not {b : Bool} (h : ¬ b = true) : b = false := by
  cases b
  · rfl
  · exact absurd rfl h

theorem not_of_bool_eq_false {b : Bool} (h : b = false) : ¬ b = true := by
  rw [h]
  simp

theorem failed_targets_contains_iff (t : KernelWorkTracker) (ch : Nat) :
    dcontains (failed_targets t) ch = true ↔
      dcontains t.targets ch = true ∧ t.retry_threshold ≤ triesD t ch := by
  unfold failed_targets
  rw [dcontains_iff_exists_mem]
  constructor
  · rintro ⟨v, hv⟩
    rcases List.mem_filter.mp hv with ⟨h1, h2⟩
    exact ⟨dcontains_of_mem h1, by simpa using h2⟩
  · rintro ⟨h1, h2⟩
    rcases dcontains_iff_exists_mem.mp h1 with ⟨v, hv⟩
    exact ⟨v, List.mem_filter.mpr ⟨hv, by simpa using h2⟩⟩

theorem targets_to_schedule_contains_iff (t : KernelWorkTracker) (ch : Nat) :
    dcontains (targets_to_schedule t) ch = true ↔
      dcontains t.targets ch = true ∧
      dcontains t.scheduled ch = false ∧
      dcontains (failed_targets t) ch = false ∧
      dcontains (successful_targets t) ch = false ∧
      dcontains t.cancelled ch = false := by
  unfold targets_to_schedule
  rw [dcontains_iff_exists_mem]
  constructor
  · rintro ⟨v, hv⟩
    rcases List.mem_filter.mp hv with ⟨h1, h2⟩
    simp only [Bool.and_eq_true, Bool.not_eq_true'] at h2
    refine ⟨dcontains_of_mem h1, ?_, ?_, ?_, ?_⟩ <;> tauto
  · rintro ⟨h1, h2, h3, h4, h5⟩
    rcases dcontains_iff_exists_mem.mp h1 with ⟨v, hv⟩
    exact ⟨v, List.mem_filter.mpr ⟨hv, by simp [h2, h3, h4, h5]⟩⟩

theorem targets_being_retried_contains_iff (t : KernelWorkTracker) (ch : Nat) :
    dcontains (targets_being_retried t) ch = true ↔
      dcontains t.targets ch = true ∧
      dcontains (targets_tried_at_least_once t) ch = true ∧
      dcontains (failed_targets t) ch = false ∧
      dcontains (successful_targets t) ch = false := by
  unfold targets_being_retried
  rw [dcontains_iff_exists_mem]
  constructor
  · rintro ⟨v, hv⟩
    rcases List.mem_filter.mp hv with ⟨h1, h2⟩
    simp only [Bool.and_eq_true, Bool.not_eq_true'] at h2
    refine ⟨dcontains_of_mem h1, ?_, ?_, ?_⟩ <;> tauto
  · rintro ⟨h1, h2, h3, h4⟩
    rcases dcontains_iff_exists_mem.mp h1 with ⟨v, hv⟩
    exact ⟨v, List.mem_filter.mpr ⟨hv, by simp [h2, h3, h4]⟩⟩

theorem dcontains_map_target_vals (t : KernelWorkTracker) (l : List (Nat × Nat)) (k : Nat) :
    dcontains (l.map (fun p => (p.fst, dgetD t.targets p.fst none))) k = true ↔
      dcontains l k = true := by
  rw [dcontains_iff_exists_mem, dcontains_iff_exists_mem]
  constructor
  · rintro ⟨w, hw⟩
    rcases List.mem_map.mp hw with ⟨p, hp, heq⟩
    have hk : p.fst = k := congrArg Prod.fst heq
    exact ⟨p.snd, by simpa [← hk] using hp⟩
  · rintro ⟨v, hv⟩
    exact ⟨dgetD t.targets k none, List.mem_map.mpr ⟨(k, v), hv, rfl⟩⟩

theorem targets_tried_at_least_once_contains_iff (t : KernelWorkTracker) (ch : Nat)
    (nd : (dkeys t.tries).Nodup) :
    dcontains (targets_tried_at_least_once t) ch = true ↔
      ∃ n, dget? t.tries ch = some n ∧ 0 < n := by
  unfold targets_tried_at_least_once
  rw [dcontains_map_target_vals,
    dcontains_filter_val (fun v => decide (0 < v)) nd]
  simp

theorem targets_not_yet_tried_contains_iff (t : KernelWorkTracker) (ch : Nat)
    (nd : (dkeys t.tries).Nodup) :
    dcontains (targets_not_yet_tried t) ch = true ↔ dget? t.tries ch = some 0 := by
  unfold targets_not_yet_tried
  rw [dcontains_map_target_vals,
    dcontains_filter_val (fun v => decide (v = 0)) nd]
  constructor
  · rintro ⟨n, hn, h0⟩
    have : n = 0 := by simpa using h0
    rw [← this]
    exact hn
  · intro h
    exact ⟨0, h, by simp⟩

theorem dgetD_dset_self {α β : Type} [DecidableEq α] (d : List (α × β)) (k : α) (v v0 : β) :
    dgetD (dset d k v) k v0 = v := by
  simp [dgetD, dget?_dset_self]

theorem dgetD_dset_ne {α β : Type} [DecidableEq α] (d : List (α × β)) (k k' : α) (v v0 : β)
    (h : k' ≠ k) : dgetD (dset d k v) k' v0 = dgetD d k' v0 := by
  simp [dgetD, dget?_dset_ne _ _ _ _ h]

theorem applyOp_schedule_state (t : KernelWorkTracker) (ch : Nat) (m : Option Nat) :
    applyOp t (.scheduleOp ch m) =
      if dcontains t.scheduled ch = true then t
      else { t with scheduled := dset t.scheduled ch m } := by
  by_cases h : dcontains t.scheduled ch = true
  · simp [applyOp, report_scheduled, h, PyResult.state]
  · simp [applyOp, report_scheduled, bool_eq_false_of_not h, PyResult.state]

theorem applyOp_fail_state (t : KernelWorkTracker) (ch : Nat) :
    applyOp t (.failOp ch) =
      match dget? t.tries ch with
      | none => t
      | some n =>
        if dcontains t.scheduled ch = true then
          { t with tries := dset t.tries ch (n + 1), scheduled := derase t.scheduled ch }
        else { t with tries := dset t.tries ch (n + 1) } := by
  rcases h : dget? t.tries ch with _ | n
  · simp [applyOp, report_failure, report_try, h, PyResult.state]
  · by_cases h2 : dcontains t.scheduled ch = true
    · simp [applyOp, report_failure, report_try, h, h2, PyResult.state]
    · simp [applyOp, report_failure, report_try, h, bool_eq_false_of_not h2, PyResult.state]

theorem applyOp_complete_state (t : KernelWorkTracker) (ch msg : Nat) :
    applyOp t (.completeOp ch msg) =
      match dget? t.tries ch with
      | none => t
      | some n =>
        if dcontains t.scheduled ch = true then
          { t with tries := dset t.tries ch (n + 1), scheduled := derase t.scheduled ch,
                   completed_successfully := dset t.completed_successfully ch msg }
        else { t with tries := dset t.tries ch (n + 1) } := by
  rcases h : dget? t.tries ch with _ | n
  · simp [applyOp, report_completed, report_try, h, PyResult.state]
  · by_cases h2 : dcontains t.scheduled ch = true
    · simp [applyOp, report_completed, report_try, h, h2, PyResult.state]
    · simp [applyOp, report_completed, report_try, h, bool_eq_false_of_not h2, PyResult.state]

theorem applyOp_cancel_state (t : KernelWorkTracker) :
    applyOp t .cancelOp = tracker_cancel t := rfl

theorem applyOp_targets (t : KernelWorkTracker) (op : TrackerOp) :
    (applyOp t op).targets = t.targets := by
  cases op with
  | scheduleOp ch m =>
    rw [applyOp_schedule_state]
    split <;> rfl
  | completeOp ch msg =>
    rw [applyOp_complete_state]
    split
    · rfl
    · split <;> rfl
  | failOp ch =>
    rw [applyOp_fail_state]
    split
    · rfl
    · split <;> rfl
  | cancelOp => rfl

theorem applyOp_retry_threshold (t : KernelWorkTracker) (op : TrackerOp) :
    (applyOp t op).retry_threshold = t.retry_threshold := by
  cases op with
  | scheduleOp ch m =>
    rw [applyOp_schedule_state]
    split <;> rfl
  | completeOp ch msg =>
    rw [applyOp_complete_state]
    split
    · rfl
    · split <;> rfl
  | failOp ch =>
    rw [applyOp_fail_state]
    split
    · rfl
    · split <;> rfl
  | cancelOp => rfl

theorem triesD_mono_applyOp (t : KernelWorkTracker) (op : TrackerOp) (ch : Nat) :
    triesD t ch ≤ triesD (applyOp t op) ch := by
  cases op with
  | scheduleOp ch0 m =>
    rw [applyOp_schedule_state]
    split <;> rfl
  | completeOp ch0 msg =>
    rw [applyOp_complete_state]
    split
    · rfl
    · rename_i n heq
      have hstep : triesD t ch ≤ dgetD (dset t.tries ch0 (n + 1)) ch 0 := by
        by_cases hc : ch = ch0
        · subst hc
          rw [dgetD_dset_self]
          simp only [triesD, dgetD, heq, Option.getD_some]
          omega
        · rw [dgetD_dset_ne _ _ _ _ _ hc]
          rfl
      split <;> exact hstep
  | failOp ch0 =>
    rw [applyOp_fail_state]
    split
    · rfl
    · rename_i n heq
      have hstep : triesD t ch ≤ dgetD (dset t.tries ch0 (n + 1)) ch 0 := by
        by_cases hc : ch = ch0
        · subst hc
          rw [dgetD_dset_self]
          simp only [triesD, dgetD, heq, Option.getD_some]
          omega
        · rw [dgetD_dset_ne _ _ _ _ _ hc]
          rfl
      split <;> exact hstep
  | cancelOp => rfl

theorem applyOps_targets (t : KernelWorkTracker) (ops : List TrackerOp) :
    (applyOps t ops).targets = t.targets := by
  induction ops generalizing t with
  | nil => rfl
  | cons op rest ih =>
    have : applyOps t (op :: rest) = applyOps (applyOp t op) rest := rfl
    rw [this, ih, applyOp_targets]

theorem applyOps_retry_threshold (t : KernelWorkTracker) (ops : List TrackerOp) :
    (applyOps t ops).retry_threshold = t.retry_threshold := by
  induction ops generalizing t with
  | nil => rfl
  | cons op rest ih =>
    have : applyOps t (op :: rest) = applyOps (applyOp t op) rest := rfl
    rw [this, ih, applyOp_retry_threshold]

theorem triesD_mono_applyOps (t : KernelWorkTracker) (ops : List TrackerOp) (ch : Nat) :
    triesD t ch ≤ triesD (applyOps t ops) ch := by
  induction ops generalizing t with
  | nil => exact Nat.le_refl _
  | cons op rest ih =>
    have : applyOps t (op :: rest) = applyOps (applyOp t op) rest := rfl
    rw [this]
    exact Nat.le_trans (triesD_mono_applyOp t op ch) (ih (applyOp t op))

theorem trackerInv_init (sc : Option Nat) (sm : Nat) (targets : List (Nat × Option Nat))
    (opType : MirrorOperationType) (th : Nat) (nd : (dkeys targets).Nodup) :
    TrackerInv (KernelWorkTracker.init sc sm targets opType th) := by
  have hkeys : dkeys (targets.map (fun p => (p.fst, (0 : Nat)))) = dkeys targets := by
    unfold dkeys
    rw [List.map_map]
    rfl
  refine ⟨?_, ?_, ?_, ?_, ?_⟩
  · show (dkeys (targets.map (fun p => (p.fst, (0 : Nat))))).Nodup
    rw [hkeys]
    exact nd
  · intro ch
    exact dcontains_map_keyfun targets (fun _ => (0 : Nat)) ch
  · intro ch h
    simp [KernelWorkTracker.init, dcontains, dget?] at h
  · intro ch h
    simp [KernelWorkTracker.init, dcontains, dget?] at h
  · intro ch h
    simp [KernelWorkTracker.init, dcontains, dget?] at h

theorem applyOp_schedule_free (t : KernelWorkTracker) (ch : Nat) (m : Option Nat)
    (hs : dcontains t.scheduled ch = false) :
    applyOp t (.scheduleOp ch m) = { t with scheduled := dset t.scheduled ch m } := by
  simp [applyOp, report_scheduled, hs, PyResult.state]

theorem applyOp_fail_sched (t : KernelWorkTracker) (ch n : Nat)
    (hn : dget? t.tries ch = some n) (hs : dcontains t.scheduled ch = true) :
    applyOp t (.failOp ch) =
      { t with tries := dset t.tries ch (n + 1), scheduled := derase t.scheduled ch } := by
  simp [applyOp, report_failure, report_try, hn, hs, PyResult.state]

theorem applyOp_complete_sched (t : KernelWorkTracker) (ch msg n : Nat)
    (hn : dget? t.tries ch = some n) (hs : dcontains t.scheduled ch = true) :
    applyOp t (.completeOp ch msg) =
      { t with tries := dset t.tries ch (n + 1), scheduled := derase t.scheduled ch,
               completed_successfully := dset t.completed_successfully ch msg } := by
  simp [applyOp, report_completed, report_try, hn, hs, PyResult.state]

theorem tracker_cancel_fields (t : KernelWorkTracker) :
    tracker_cancel t =
      { t with
        cancelled := dupdate (dupdate t.cancelled t.scheduled)
          (targets_to_schedule { t with cancelled := dupdate t.cancelled t.scheduled }),
        scheduled := [] } := rfl

theorem trackerInv_applyOp {t : KernelWorkTracker} {op : TrackerOp}
    (hInv : TrackerInv t) (hop : opOK t op = true) : TrackerInv (applyOp t op) := by
  obtain ⟨hA, hB, hC, hD, hE⟩ := hInv
  cases op with
  | scheduleOp ch m =>
    have hts := (targets_to_schedule_contains_iff t ch).mp (by simpa [opOK] using hop)
    obtain ⟨htg, hsch, hf, hsucc, hcanc⟩ := hts
    rw [applyOp_schedule_free t ch m hsch]
    refine ⟨hA, hB, hC, ?_, hE⟩
    intro ch' h'
    rcases (dcontains_dset_iff _ _ _ _).mp h' with heq | hold
    · subst heq
      have hltF : triesD t ch' < t.retry_threshold := by
        by_contra hge
        have hft : dcontains (failed_targets t) ch' = true :=
          (failed_targets_contains_iff t ch').mpr ⟨htg, Nat.le_of_not_lt hge⟩
        exact absurd hft (not_of_bool_eq_false hf)
      exact ⟨htg, hltF, hsucc, hcanc⟩
    · exact hD ch' hold
  | failOp ch =>
    have hsch : dcontains t.scheduled ch = true := by simpa [opOK] using hop
    obtain ⟨htg, hlt, hncomp, hncanc⟩ := hD ch hsch
    have htr : dcontains t.tries ch = true := (hB ch).mpr htg
    rcases Option.isSome_iff_exists.mp htr with ⟨n, hn⟩
    rw [applyOp_fail_sched t ch n hn hsch]
    refine ⟨nodup_dkeys_dset _ _ hA, ?_, ?_, ?_, ?_⟩
    · intro ch'
      rw [dcontains_dset_iff]
      constructor
      · rintro (rfl | hold)
        · exact htg
        · exact (hB ch').mp hold
      · intro h
        exact Or.inr ((hB ch').mpr h)
    · intro ch' h'
      obtain ⟨htg', hge'⟩ := hC ch' h'
      refine ⟨htg', ?_⟩
      by_cases hc : ch' = ch
      · subst hc
        show 1 ≤ dgetD (dset t.tries ch' (n + 1)) ch' 0
        rw [dgetD_dset_self]
        omega
      · show 1 ≤ dgetD (dset t.tries ch (n + 1)) ch' 0
        rw [dgetD_dset_ne _ _ _ _ _ hc]
        exact hge'
    · intro ch' h'
      obtain ⟨hne, hold⟩ := (dcontains_derase_iff _ _ _).mp h'
      obtain ⟨htg', hlt', hnc', hnca'⟩ := hD ch' hold
      refine ⟨htg', ?_, hnc', hnca'⟩
      show dgetD (dset t.tries ch (n + 1)) ch' 0 < t.retry_threshold
      rw [dgetD_dset_ne _ _ _ _ _ hne]
      exact hlt'
    · intro ch' h'
      obtain ⟨htg', hlt', hnc'⟩ := hE ch' h'
      have hne : ch' ≠ ch := by
        intro heq
        subst heq
        rw [hncanc] at h'
        simp at h'
      refine ⟨htg', ?_, hnc'⟩
      show dgetD (dset t.tries ch (n + 1)) ch' 0 < t.retry_threshold
      rw [dgetD_dset_ne _ _ _ _ _ hne]
      exact hlt'
  | completeOp ch msg =>
    have hsch : dcontains t.scheduled ch = true := by simpa [opOK] using hop
    obtain ⟨htg, hlt, hncomp, hncanc⟩ := hD ch hsch
    have htr : dcontains t.tries ch = true := (hB ch).mpr htg
    rcases Option.isSome_iff_exists.mp htr with ⟨n, hn⟩
    rw [applyOp_complete_sched t ch msg n hn hsch]
    refine ⟨nodup_dkeys_dset _ _ hA, ?_, ?_, ?_, ?_⟩
    · intro ch'
      rw [dcontains_dset_iff]
      constructor
      · rintro (rfl | hold)
        · exact htg
        · exact (hB ch').mp hold
      · intro h
        exact Or.inr ((hB ch').mpr h)
    · intro ch' h'
      rcases (dcontains_dset_iff _ _ _ _).mp h' with heq | hold
      · subst heq
        refine ⟨htg, ?_⟩
        show 1 ≤ dgetD (dset t.tries ch' (n + 1)) ch' 0
        rw [dgetD_dset_self]
        omega
      · obtain ⟨htg', hge'⟩ := hC ch' hold
        refine ⟨htg', ?_⟩
        by_cases hc : ch' = ch
        · subst hc
          show 1 ≤ dgetD (dset t.tries ch' (n + 1)) ch' 0
          rw [dgetD_dset_self]
          omega
        · show 1 ≤ dgetD (dset t.tries ch (n + 1)) ch' 0
          rw [dgetD_dset_ne _ _ _ _ _ hc]
          exact hge'
    · intro ch' h'
      obtain ⟨hne, hold⟩ := (dcontains_derase_iff _ _ _).mp h'
      obtain ⟨htg', hlt', hnc', hnca'⟩ := hD ch' hold
      refine ⟨htg', ?_, ?_, hnca'⟩
      · show dgetD (dset t.tries ch (n + 1)) ch' 0 < t.retry_threshold
        rw [dgetD_dset_ne _ _ _ _ _ hne]
        exact hlt'
      · apply bool_eq_false_of_not
        intro hcc
        rcases (dcontains_dset_iff _ _ _ _).mp hcc with heq | holdc
        · exact hne heq
        · rw [hnc'] at holdc
          simp at holdc
    · intro ch' h'
      obtain ⟨htg', hlt', hnc'⟩ := hE ch' h'
      have hne : ch' ≠ ch := by
        intro heq
        subst heq
        rw [hncanc] at h'
        simp at h'
      refine ⟨htg', ?_, ?_⟩
      · show dgetD (dset t.tries ch (n + 1)) ch' 0 < t.retry_threshold
        rw [dgetD_dset_ne _ _ _ _ _ hne]
        exact hlt'
      · apply bool_eq_false_of_not
        intro hcc
        rcases (dcontains_dset_iff _ _ _ _).mp hcc with heq | holdc
        · exact hne heq
        · rw [hnc'] at holdc
          simp at holdc
  | cancelOp =>
    rw [applyOp_cancel_state, tracker_cancel_fields]
    refine ⟨hA, hB, hC, ?_, ?_⟩
    · intro ch' h'
      simp [dcontains, dget?] at h'
    · intro ch' h'
      rcases (dcontains_dupdate_iff _ _ _).mp h' with h1 | h1
      · rcases (dcontains_dupdate_iff _ _ _).mp h1 with h2 | h2
        · exact hE ch' h2
        · obtain ⟨htg', hlt', hnc', _⟩ := hD ch' h2
          exact ⟨htg', hlt', hnc'⟩
      · have hts := (targets_to_schedule_contains_iff _ ch').mp h1
        obtain ⟨htg', hsch', hf', hsucc', hcanc'⟩ := hts
        refine ⟨htg', ?_, hsucc'⟩
        by_contra hge
        have hft : dcontains
            (failed_targets { t with cancelled := dupdate t.cancelled t.scheduled }) ch'
              = true :=
          (failed_targets_contains_iff _ ch').mpr ⟨htg', Nat.le_of_not_lt hge⟩
        exact absurd hft (not_of_bool_eq_false hf')

theorem trackerInv_applyOps {t : KernelWorkTracker} {ops : List TrackerOp}
    (hInv : TrackerInv t) (h : contractOps t ops = true) : TrackerInv (applyOps t ops) := by
  induction ops generalizing t with
  | nil => exact hInv
  | cons op rest ih =>
    rw [contractOps] at h
    simp only [Bool.and_eq_true] at h
    obtain ⟨h1, h2⟩ := h
    exact ih (trackerInv_applyOp hInv h1) h2

theorem sets_of_inv {t : KernelWorkTracker} (hInv : TrackerInv t)
    (hth : 0 < t.retry_threshold) : sets_cover_and_disjoint t := by
  obtain ⟨hA, hB, hC, hD, hE⟩ := hInv
  have hN : ∀ ch, dcontains (targets_not_yet_tried t) ch = true ↔
      dget? t.tries ch = some 0 :=
    fun ch => targets_not_yet_tried_contains_iff t ch hA
  have hT : ∀ ch, dcontains (targets_tried_at_least_once t) ch = true ↔
      ∃ n, dget? t.tries ch = some n ∧ 0 < n :=
    fun ch => targets_tried_at_least_once_contains_iff t ch hA
  refine ⟨?_, ?_, ?_, ?_, ?_, ?_, ?_, ?_⟩
  · intro ch
    constructor
    · intro htg
      have htr : dcontains t.tries ch = true := (hB ch).mpr htg
      rcases Option.isSome_iff_exists.mp htr with ⟨n, hn⟩
      have htries : triesD t ch = n := by simp [triesD, dgetD, hn]
      by_cases h0 : n = 0
      · exact Or.inl ((hN ch).mpr (h0 ▸ hn))
      · by_cases hge : t.retry_threshold ≤ n
        · refine Or.inr (Or.inr (Or.inl ((failed_targets_contains_iff t ch).mpr
            ⟨htg, ?_⟩)))
          rw [htries]
          exact hge
        · by_cases hs : dcontains (successful_targets t) ch = true
          · exact Or.inr (Or.inr (Or.inr (Or.inl hs)))
          · refine Or.inr (Or.inl ((targets_being_retried_contains_iff t ch).mpr
              ⟨htg, (hT ch).mpr ⟨n, hn, Nat.pos_of_ne_zero h0⟩, ?_, ?_⟩))
            · apply bool_eq_false_of_not
              intro hf
              obtain ⟨_, hge'⟩ := (failed_targets_contains_iff t ch).mp hf
              rw [htries] at hge'
              exact hge hge'
            · exact bool_eq_false_of_not hs
    · rintro (h | h | h | h | h)
      · have h2 := (hN ch).mp h
        exact (hB ch).mp (by simp [dcontains, h2])
      · exact ((targets_being_retried_contains_iff t ch).mp h).1
      · exact ((failed_targets_contains_iff t ch).mp h).1
      · exact (hC ch h).1
      · exact (hE ch h).1
  · rintro ch ⟨h1, h2⟩
    have h0 := (hN ch).mp h1
    obtain ⟨_, htried, _, _⟩ := (targets_being_retried_contains_iff t ch).mp h2
    obtain ⟨n, hn, hpos⟩ := (hT ch).mp htried
    rw [h0] at hn
    injection hn with hn2
    omega
  · rintro ch ⟨h1, h2⟩
    have h0 := (hN ch).mp h1
    obtain ⟨_, hge⟩ := (failed_targets_contains_iff t ch).mp h2
    have htries : triesD t ch = 0 := by simp [triesD, dgetD, h0]
    omega
  · rintro ch ⟨h1, h2⟩
    have h0 := (hN ch).mp h1
    obtain ⟨_, hge⟩ := hC ch h2
    have htries : triesD t ch = 0 := by simp [triesD, dgetD, h0]
    omega
  · rintro ch ⟨h1, h2⟩
    obtain ⟨_, _, hf, _⟩ := (targets_being_retried_contains_iff t ch).mp h1
    exact absurd h2 (not_of_bool_eq_false hf)
  · rintro ch ⟨h1, h2⟩
    obtain ⟨_, _, _, hs⟩ := (targets_being_retried_contains_iff t ch).mp h1
    exact absurd h2 (not_of_bool_eq_false hs)
  · rintro ch ⟨h1, h2⟩
    obtain ⟨_, hge⟩ := (failed_targets_contains_iff t ch).mp h1
    obtain ⟨_, hlt, _⟩ := hE ch h2
    omega
  · rintro ch ⟨h1, h2⟩
    obtain ⟨_, _, hnc⟩ := hE ch h2
    exact absurd h1 (not_of_bool_eq_false hnc)

/-- C1: the claimed pairwise disjointness of the five observation sets fails
on the code.  Along a trace respecting the controller contract, channel 1 —
reported completed on its second attempt with `retry_threshold = 2` — is
simultaneously a member of `successful_targets` and of `failed_targets`
(because `failed_targets` compares the *attempt* counter, which
`report_completed` also increments, against the threshold); moreover channel 2
is simultaneously being-retried and cancelled, and channel 3 is simultaneously
not-yet-tried and cancelled. -/
theorem C1_counterexample :
    contractOps c1_start c1_trace = true ∧
    dcontains (successful_targets (applyOps c1_start c1_trace)) 1 = true ∧
    dcontains (failed_targets (applyOps c1_start c1_trace)) 1 = true ∧
    dcontains (targets_being_retried (applyOps c1_start c1_trace)) 2 = true ∧
    dcontains (applyOps c1_start c1_trace).cancelled 2 = true ∧
    dcontains (targets_not_yet_tried (applyOps c1_start c1_trace)) 3 = true ∧
    dcontains (applyOps c1_start c1_trace).cancelled 3 = true := by
  decide

/-- C1 (amended): for every tracker built over a duplicate-free target set
with a positive retry threshold, and every call sequence respecting the
controller contract, the five sets succeeded / permanently-failed / cancelled
/ not-yet-tried / being-retried cover the full target set exactly, and all
pairs among them are disjoint except the three the implementation does not
separate: succeeded may overlap permanently-failed (a target completed on its
threshold-th attempt is in both), and cancelled may overlap not-yet-tried and
being-retried. -/
theorem C1_tracker_sets_amended (sc : Option Nat) (sm : Nat)
    (opType : MirrorOperationType) (th : Nat) (targets0 : List (Nat × Option Nat))
    (ops : List TrackerOp) (hnd : (dkeys targets0).Nodup) (hth : 0 < th)
    (hcontract : contractOps (KernelWorkTracker.init sc sm targets0 opType th) ops
      = true) :
    sets_cover_and_disjoint
      (applyOps (KernelWorkTracker.init sc sm targets0 opType th) ops) := by
  have hInv := trackerInv_applyOps (trackerInv_init sc sm targets0 opType th hnd) hcontract
  have hth2 : 0 < (applyOps (KernelWorkTracker.init sc sm targets0 opType th)
      ops).retry_threshold := by
    rw [applyOps_retry_threshold]
    exact hth
  exact sets_of_inv hInv hth2

/-- Witness for the amended C1 theorem at a concrete tracker and trace. -/
theorem C1_tracker_sets_amended_witness :
    (dkeys [((1 : Nat), (none : Option Nat))]).Nodup ∧ 0 < 3 ∧
    contractOps (KernelWorkTracker.init (some 1) 2 [(1, none)]
      MirrorOperationType.UPDATE 3) [.scheduleOp 1 none, .completeOp 1 9] = true ∧
    sets_cover_and_disjoint
      (applyOps (KernelWorkTracker.init (some 1) 2 [(1, none)]
        MirrorOperationType.UPDATE 3) [.scheduleOp 1 none, .completeOp 1 9]) :=
  ⟨by decide, by decide, by decide,
    C1_tracker_sets_amended (some 1) 2 .UPDATE 3 [(1, none)]
      [.scheduleOp 1 none, .completeOp 1 9] (by decide) (by decide) (by decide)⟩

theorem dget?_map_const_zero (d : List (Nat × Option Nat)) (ch : Nat)
    (h : dcontains d ch = true) :
    dget? (d.map (fun p => (p.fst, (0 : Nat)))) ch = some 0 := by
  induction d with
  | nil => simp [dcontains, dget?] at h
  | cons p rest ih =>
    by_cases hk : p.fst = ch
    · simp [dget?, hk]
    · rw [List.map_cons, dget?, if_neg hk]
      rw [dcontains, dget?, if_neg hk] at h
      exact ih h

theorem applyOps_append (t : KernelWorkTracker) (l1 l2 : List TrackerOp) :
    applyOps t (l1 ++ l2) = applyOps (applyOps t l1) l2 := by
  unfold applyOps
  exact List.foldl_append _ _ _ _

theorem fail_cycle_state (s : KernelWorkTracker) (ch n : Nat)
    (hs : dcontains s.scheduled ch = false)
    (hn : dget? s.tries ch = some n) :
    applyOps s (fail_cycle ch) =
      { s with tries := dset s.tries ch (n + 1),
               scheduled := derase (dset s.scheduled ch none) ch } := by
  have h1 : applyOp s (.scheduleOp ch none)
      = { s with scheduled := dset s.scheduled ch none } :=
    applyOp_schedule_free s ch none hs
  have hs2 : dcontains
      (({ s with scheduled := dset s.scheduled ch none } : KernelWorkTracker).scheduled)
      ch = true := by
    simp [dcontains, dget?_dset_self]
  have hn2 : dget?
      (({ s with scheduled := dset s.scheduled ch none } : KernelWorkTracker).tries)
      ch = some n := hn
  show applyOp (applyOp s (.scheduleOp ch none)) (.failOp ch) = _
  rw [h1, applyOp_fail_sched _ ch n hn2 hs2]

theorem dcontains_derase_self_false {α β : Type} [DecidableEq α] (d : List (α × β))
    (k : α) : dcontains (derase d k) k = false := by
  apply bool_eq_false_of_not
  intro h
  exact ((dcontains_derase_iff _ _ _).mp h).1 rfl

theorem fail_cycle_facts (s : KernelWorkTracker) (ch n : Nat)
    (hs : dcontains s.scheduled ch = false)
    (hn : dget? s.tries ch = some n) :
    dget? (applyOps s (fail_cycle ch)).tries ch = some (n + 1) ∧
    dcontains (applyOps s (fail_cycle ch)).scheduled ch = false ∧
    (applyOps s (fail_cycle ch)).targets = s.targets ∧
    (applyOps s (fail_cycle ch)).completed_successfully = s.completed_successfully ∧
    (applyOps s (fail_cycle ch)).cancelled = s.cancelled ∧
    (applyOps s (fail_cycle ch)).retry_threshold = s.retry_threshold := by
  rw [fail_cycle_state s ch n hs hn]
  refine ⟨?_, ?_, rfl, rfl, rfl, rfl⟩
  · exact dget?_dset_self _ _ _
  · exact dcontains_derase_self_false _ _

/-- C5: with `retry_threshold = 3`, a target that is scheduled and fails in
every round is still schedulable after one and after two recorded failures;
after exactly three recorded failures it is a member of `failed_targets`, and
from then on — whatever further tracker calls happen — it stays in
`failed_targets` and never reappears in `targets_to_schedule`. -/
theorem C5_retry_exhaustion (sc : Option Nat) (sm : Nat) (opType : MirrorOperationType)
    (targets0 : List (Nat × Option Nat)) (ch : Nat)
    (hch : dcontains targets0 ch = true) :
    dcontains (targets_to_schedule
      (applyOps (KernelWorkTracker.init sc sm targets0 opType 3) (fail_cycle ch))) ch
        = true ∧
    dcontains (targets_to_schedule
      (applyOps (KernelWorkTracker.init sc sm targets0 opType 3)
        (fail_cycle ch ++ fail_cycle ch))) ch = true ∧
    dcontains (failed_targets
      (applyOps (KernelWorkTracker.init sc sm targets0 opType 3)
        (fail_cycle ch ++ fail_cycle ch ++ fail_cycle ch))) ch = true ∧
    ∀ ops, dcontains (failed_targets
        (applyOps (applyOps (KernelWorkTracker.init sc sm targets0 opType 3)
          (fail_cycle ch ++ fail_cycle ch ++ fail_cycle ch)) ops)) ch = true ∧
      dcontains (targets_to_schedule
        (applyOps (applyOps (KernelWorkTracker.init sc sm targets0 opType 3)
          (fail_cycle ch ++ fail_cycle ch ++ fail_cycle ch)) ops)) ch = false := by
  have h0s : dcontains (KernelWorkTracker.init sc sm targets0 opType 3).scheduled ch
      = false := rfl
  have h0n : dget? (KernelWorkTracker.init sc sm targets0 opType 3).tries ch = some 0 :=
    dget?_map_const_zero targets0 ch hch
  have hr0 : (KernelWorkTracker.init sc sm targets0 opType 3).retry_threshold = 3 := rfl
  obtain ⟨h1n, h1s, _, h1c, h1x, _⟩ :=
    fail_cycle_facts (KernelWorkTracker.init sc sm targets0 opType 3) ch 0 h0s h0n
  obtain ⟨h2n, h2s, _, h2c, h2x, _⟩ := fail_cycle_facts _ ch 1 h1s h1n
  obtain ⟨h3n, h3s, _, h3c, h3x, _⟩ := fail_cycle_facts _ ch 2 h2s h2n
  simp only [applyOps_append]
  refine ⟨?_, ?_, ?_, ?_⟩
  · refine (targets_to_schedule_contains_iff _ ch).mpr ⟨?_, h1s, ?_, ?_, ?_⟩
    · rw [applyOps_targets]
      exact hch
    · apply bool_eq_false_of_not
      intro hf
      obtain ⟨_, hge⟩ := (failed_targets_contains_iff _ ch).mp hf
      have ht : triesD (applyOps (KernelWorkTracker.init sc sm targets0 opType 3)
          (fail_cycle ch)) ch = 1 := by
        simp [triesD, dgetD, h1n]
      rw [ht, applyOps_retry_threshold, hr0] at hge
      omega
    · rw [successful_targets, h1c]
      rfl
    · rw [h1x]
      rfl
  · refine (targets_to_schedule_contains_iff _ ch).mpr ⟨?_, h2s, ?_, ?_, ?_⟩
    · simp only [applyOps_targets]
      exact hch
    · apply bool_eq_false_of_not
      intro hf
      obtain ⟨_, hge⟩ := (failed_targets_contains_iff _ ch).mp hf
      have ht : triesD (applyOps (applyOps (KernelWorkTracker.init sc sm targets0
          opType 3) (fail_cycle ch)) (fail_cycle ch)) ch = 2 := by
        simp [triesD, dgetD, h2n]
      rw [ht] at hge
      simp only [applyOps_retry_threshold] at hge
      rw [hr0] at hge
      omega
    · rw [successful_targets, h2c, h1c]
      rfl
    · rw [h2x, h1x]
      rfl
  · refine (failed_targets_contains_iff _ ch).mpr ⟨?_, ?_⟩
    · simp only [applyOps_targets]
      exact hch
    · have ht : triesD (applyOps (applyOps (applyOps (KernelWorkTracker.init sc sm
          targets0 opType 3) (fail_cycle ch)) (fail_cycle ch)) (fail_cycle ch)) ch
            = 3 := by
        simp [triesD, dgetD, h3n]
      rw [ht]
      simp only [applyOps_retry_threshold]
      rw [hr0]
  · intro ops
    have ht : triesD (applyOps (applyOps (applyOps (KernelWorkTracker.init sc sm
        targets0 opType 3) (fail_cycle ch)) (fail_cycle ch)) (fail_cycle ch)) ch
          = 3 := by
      simp [triesD, dgetD, h3n]
    have hmono := triesD_mono_applyOps (applyOps (applyOps (applyOps
        (KernelWorkTracker.init sc sm targets0 opType 3) (fail_cycle ch))
        (fail_cycle ch)) (fail_cycle ch)) ops ch
    have hF : dcontains (failed_targets (applyOps (applyOps (applyOps (applyOps
        (KernelWorkTracker.init sc sm targets0 opType 3) (fail_cycle ch))
        (fail_cycle ch)) (fail_cycle ch)) ops)) ch = true := by
      refine (failed_targets_contains_iff _ ch).mpr ⟨?_, ?_⟩
      · simp only [applyOps_targets]
        exact hch
      · simp only [applyOps_retry_threshold]
        rw [hr0]
        omega
    refine ⟨hF, ?_⟩
    apply bool_eq_false_of_not
    intro h
    obtain ⟨_, _, hf, _, _⟩ := (targets_to_schedule_contains_iff _ ch).mp h
    exact absurd hF (not_of_bool_eq_false hf)

/-- Witness for C5 at a concrete single-target tracker. -/
theorem C5_retry_exhaustion_witness :
    dcontains [((1 : Nat), (none : Option Nat))] 1 = true ∧
    dcontains (failed_targets
      (applyOps (KernelWorkTracker.init (some 1) 2 [(1, none)]
        MirrorOperationType.UPDATE 3)
        (fail_cycle 1 ++ fail_cycle 1 ++ fail_cycle 1))) 1 = true :=
  ⟨by decide,
    (C5_retry_exhaustion (some 1) 2 .UPDATE [(1, none)] 1 (by decide)).2.2.1⟩

/-- C6: in any tracker state, `cancel()` moves every currently-scheduled
target and every schedulable target into the cancelled set, empties the
scheduled map, leaves nothing schedulable, and makes `is_work_left_to_do`
false — so the controller loop, which launches kernels only for
`targets_to_schedule` while `is_work_left_to_do` holds, launches no further
kernel invocations. -/
theorem C6_cancel_clears_work (t : KernelWorkTracker) :
    (∀ ch, dcontains t.scheduled ch = true →
        dcontains (tracker_cancel t).cancelled ch = true) ∧
    (∀ ch, dcontains (targets_to_schedule t) ch = true →
        dcontains (tracker_cancel t).cancelled ch = true) ∧
    (tracker_cancel t).scheduled = [] ∧
    targets_to_schedule (tracker_cancel t) = [] ∧
    is_work_left_to_do (tracker_cancel t) = false := by
  have hsched_sub : ∀ ch, dcontains t.scheduled ch = true →
      dcontains (tracker_cancel t).cancelled ch = true := by
    intro ch h
    rw [tracker_cancel_fields]
    exact (dcontains_dupdate_iff _ _ _).mpr
      (Or.inl ((dcontains_dupdate_iff _ _ _).mpr (Or.inr h)))
  have hcanc_sub : ∀ ch, dcontains t.cancelled ch = true →
      dcontains (tracker_cancel t).cancelled ch = true := by
    intro ch h
    rw [tracker_cancel_fields]
    exact (dcontains_dupdate_iff _ _ _).mpr
      (Or.inl ((dcontains_dupdate_iff _ _ _).mpr (Or.inl h)))
  have htts_sub : ∀ ch, dcontains (targets_to_schedule t) ch = true →
      dcontains (tracker_cancel t).cancelled ch = true := by
    intro ch h
    obtain ⟨htg, hsch, hf, hs, hc⟩ := (targets_to_schedule_contains_iff t ch).mp h
    rw [tracker_cancel_fields]
    refine (dcontains_dupdate_iff _ _ _).mpr (Or.inr ?_)
    refine (targets_to_schedule_contains_iff _ ch).mpr ⟨htg, hsch, hf, hs, ?_⟩
    apply bool_eq_false_of_not
    intro hin
    rcases (dcontains_dupdate_iff _ _ _).mp hin with h1 | h1
    · exact absurd h1 (not_of_bool_eq_false hc)
    · exact absurd h1 (not_of_bool_eq_false hsch)
  have htts_nil : targets_to_schedule (tracker_cancel t) = [] := by
    apply eq_nil_of_forall_not_dcontains
    intro ch
    apply bool_eq_false_of_not
    intro h
    obtain ⟨htg, hsch2, hf, hs, hc⟩ := (targets_to_schedule_contains_iff _ ch).mp h
    have hc2 := not_of_bool_eq_false hc
    by_cases hsched : dcontains t.scheduled ch = true
    · exact hc2 (hsched_sub ch hsched)
    · by_cases hcanc : dcontains t.cancelled ch = true
      · exact hc2 (hcanc_sub ch hcanc)
      · apply hc2
        apply htts_sub
        exact (targets_to_schedule_contains_iff t ch).mpr
          ⟨htg, bool_eq_false_of_not hsched, hf, hs, bool_eq_false_of_not hcanc⟩
  refine ⟨hsched_sub, htts_sub, rfl, htts_nil, ?_⟩
  rw [is_work_left_to_do, htts_nil]
  rfl

/-- Witness for C6 at a concrete mid-run tracker. -/
theorem C6_cancel_clears_work_witness :
    dcontains c6_t.scheduled 1 = true ∧
    dcontains (targets_to_schedule c6_t) 2 = true ∧
    dcontains (tracker_cancel c6_t).cancelled 1 = true ∧
    dcontains (tracker_cancel c6_t).cancelled 2 = true ∧
    (tracker_cancel c6_t).scheduled = [] ∧
    targets_to_schedule (tracker_cancel c6_t) = [] ∧
    is_work_left_to_do (tracker_cancel c6_t) = false := by
  obtain ⟨h1, h2, h3, h4, h5⟩ := C6_cancel_clears_work c6_t
  exact ⟨by decide, by decide, h1 1 (by decide), h2 2 (by decide), h3, h4, h5⟩

/-- C10: the claim that an unscheduled `report_failure`/`report_completed`
call "raises a KeyError instead of recording the outcome" is refuted:
`_report_try` increments `self._tries[channel_id]` *before* popping the
scheduled entry, so for a channel that is a target but was never scheduled the
KeyError is raised *and* the attempt counter has already advanced (here from 0
to 1). -/
theorem C10_counterexample :
    (report_failure c10_t 7).raised = true ∧
    dget? ((report_failure c10_t 7).state).tries 7 = some 1 := by
  decide

/-- C10 (amended): `report_completed` and `report_failure` require the channel
to be in the scheduled map.  If the channel is not a key of `_tries` (not a
target) the call raises KeyError with no state change.  If it is a target but
not scheduled, the call raises KeyError after having already incremented the
attempt counter; `report_completed` records no success.  Under the
precondition (scheduled, and a target) each call returns normally,
increments the attempt counter by exactly one, removes the channel from the
scheduled map, and `report_completed` additionally records the success. -/
theorem C10_report_preconditions (t : KernelWorkTracker) (ch msg : Nat) :
    (dget? t.tries ch = none →
       report_failure t ch = .exn .keyError t ∧
       report_completed t ch msg = .exn .keyError t) ∧
    (∀ n, dget? t.tries ch = some n → dcontains t.scheduled ch = false →
       report_failure t ch = .exn .keyError { t with tries := dset t.tries ch (n + 1) } ∧
       report_completed t ch msg
         = .exn .keyError { t with tries := dset t.tries ch (n + 1) }) ∧
    (∀ n, dget? t.tries ch = some n → dcontains t.scheduled ch = true →
       report_failure t ch
         = .ok { t with
                  tries := dset t.tries ch (n + 1)
                  scheduled := derase t.scheduled ch } ∧
       report_completed t ch msg
         = .ok { t with
                  tries := dset t.tries ch (n + 1)
                  scheduled := derase t.scheduled ch
                  completed_successfully := dset t.completed_successfully ch msg }) := by
  refine ⟨?_, ?_, ?_⟩
  · intro hn
    constructor
    · simp [report_failure, report_try, hn]
    · simp [report_completed, report_try, hn]
  · intro n hn hs
    constructor
    · simp [report_failure, report_try, hn, hs]
    · simp [report_completed, report_try, hn, hs]
  · intro n hn hs
    constructor
    · simp [report_failure, report_try, hn, hs]
    · simp [report_completed, report_try, hn, hs]

/-- Witness for the amended C10 at the fresh single-target tracker. -/
theorem C10_report_preconditions_witness :
    dget? c10_t.tries 7 = some 0 ∧ dcontains c10_t.scheduled 7 = false ∧
    report_failure c10_t 7
      = .exn .keyError { c10_t with tries := dset c10_t.tries 7 1 } :=
  ⟨by decide, by decide,
    ((C10_report_preconditions c10_t 7 99).2.1 0 (by decide) (by decide)).1⟩

theorem registry_cancel_fst (r : KernelWorkControlRegistry) (sc : Option Nat) (sm : Nat) :
    (KernelWorkControlRegistry.cancel r sc sm).fst = r ∨
    (KernelWorkControlRegistry.cancel r sc sm).fst = derase r (sc, sm) := by
  unfold KernelWorkControlRegistry.cancel
  rcases h : dget? r (sc, sm) with _ | control
  · simp [h]
  · by_cases h2 : control.tracker.mirror_operation_type = .UPDATE <;> simp [h, h2]

theorem registry_cancel_fst_found (r : KernelWorkControlRegistry) (sc : Option Nat)
    (sm : Nat) (c : KernelWorkControl) (h : dget? r (sc, sm) = some c) :
    (KernelWorkControlRegistry.cancel r sc sm).fst = derase r (sc, sm) := by
  unfold KernelWorkControlRegistry.cancel
  by_cases h2 : c.tracker.mirror_operation_type = .UPDATE <;> simp [h, h2]

/-- C7: registering a controller whose key is already present raises
`ValueError` and leaves the registry unchanged; a fresh key is inserted; and
both registry mutators preserve duplicate-freeness of the key set, so the
registry holds at most one controller per key at all times. -/
theorem C7_registry_register (r : KernelWorkControlRegistry) (c : KernelWorkControl)
    (sc : Option Nat) (sm : Nat) :
    (dcontains r (c.tracker.source_channel_id, c.tracker.source_message_id) = true →
        KernelWorkControlRegistry.register r c = .exn .valueError r) ∧
    (dcontains r (c.tracker.source_channel_id, c.tracker.source_message_id) = false →
        KernelWorkControlRegistry.register r c
          = .ok (dset r (c.tracker.source_channel_id, c.tracker.source_message_id) c)) ∧
    ((dkeys r).Nodup → (dkeys (KernelWorkControlRegistry.register r c).state).Nodup) ∧
    ((dkeys r).Nodup →
        (dkeys (KernelWorkControlRegistry.cancel r sc sm).fst).Nodup) := by
  refine ⟨?_, ?_, ?_, ?_⟩
  · intro h
    simp [KernelWorkControlRegistry.register, h]
  · intro h
    simp [KernelWorkControlRegistry.register, h]
  · intro hnd
    by_cases h : dcontains r (c.tracker.source_channel_id, c.tracker.source_message_id)
        = true
    · simp only [KernelWorkControlRegistry.register, h, if_pos, PyResult.state]
      exact hnd
    · simp only [KernelWorkControlRegistry.register, bool_eq_false_of_not h,
        PyResult.state]
      rw [if_neg (by simp)]
      exact nodup_dkeys_dset _ _ hnd
  · intro hnd
    rcases registry_cancel_fst r sc sm with hf | hf
    · rw [hf]
      exact hnd
    · rw [hf]
      exact nodup_dkeys_derase _ hnd

/-- Witness for C7 at the empty registry. -/
theorem C7_registry_register_witness :
    dcontains ([] : KernelWorkControlRegistry)
      (c7_control.tracker.source_channel_id, c7_control.tracker.source_message_id)
        = false ∧
    KernelWorkControlRegistry.register [] c7_control
      = .ok (dset [] (c7_control.tracker.source_channel_id,
          c7_control.tracker.source_message_id) c7_control) :=
  ⟨by decide, (C7_registry_register [] c7_control (some 3) 4).2.1 (by decide)⟩

/-- C8: registry cancellation with an unregistered key raises the
"no operation in progress" error and leaves the registry unchanged; with a
registered Update controller it pops the entry and invokes the controller's
`cancel()`; with a registered Send or Delete controller it raises the
"can only cancel mirror updates" error and does not invoke `cancel()` (the
control comes back untouched); and after a cancellation that found its key, a
second cancellation of the same key raises "no operation in progress". -/
theorem C8_registry_cancel (r : KernelWorkControlRegistry) (sc : Option Nat) (sm : Nat) :
    (dget? r (sc, sm) = none →
        KernelWorkControlRegistry.cancel r sc sm = (r, .noOperationInProgress)) ∧
    (∀ c, dget? r (sc, sm) = some c → c.tracker.mirror_operation_type = .UPDATE →
        KernelWorkControlRegistry.cancel r sc sm
          = (derase r (sc, sm), .cancelled c.cancel)) ∧
    (∀ c, dget? r (sc, sm) = some c → c.tracker.mirror_operation_type ≠ .UPDATE →
        KernelWorkControlRegistry.cancel r sc sm
          = (derase r (sc, sm), .cannotCancelNonUpdate c)) ∧
    (∀ c, dget? r (sc, sm) = some c →
        KernelWorkControlRegistry.cancel (KernelWorkControlRegistry.cancel r sc sm).fst
            sc sm
          = ((KernelWorkControlRegistry.cancel r sc sm).fst,
             .noOperationInProgress)) := by
  refine ⟨?_, ?_, ?_, ?_⟩
  · intro h
    simp [KernelWorkControlRegistry.cancel, h]
  · intro c h h2
    simp [KernelWorkControlRegistry.cancel, h, h2]
  · intro c h h2
    simp [KernelWorkControlRegistry.cancel, h, h2]
  · intro c h
    rw [registry_cancel_fst_found r sc sm c h]
    have hnone : dget? (derase r (sc, sm)) (sc, sm) = none := dget?_derase_self _ _
    simp [KernelWorkControlRegistry.cancel, hnone]

/-- Witness for C8: cancelling an update operation pops and cancels it, and a
second cancellation then reports that no operation is in progress. -/
theorem C8_registry_cancel_witness :
    dget? (dset [] ((some 3 : Option Nat), (4 : Nat)) c7_control) (some 3, 4)
        = some c7_control ∧
    KernelWorkControlRegistry.cancel (dset [] ((some 3 : Option Nat), 4) c7_control)
        (some 3) 4
      = (derase (dset [] ((some 3 : Option Nat), 4) c7_control) (some 3, 4),
         .cancelled c7_control.cancel) :=
  ⟨by decide,
    (C8_registry_cancel (dset [] ((some 3 : Option Nat), 4) c7_control) (some 3) 4).2.1
      c7_control (by decide) (by decide)⟩

/-- C9: an update event whose source message has zero destination mappings
makes the driver return immediately after the lookup: no controller is built
(the registry is untouched), no kernel is launched, and no progress message is
created. -/
theorem C9_update_driver_no_mappings (r : KernelWorkControlRegistry) :
    message_update_repeater_impl [] r
      = ⟨.returnedNoMappings, [], false, r⟩ := rfl

/-- C4 (code bug): for every update event with at least one destination
mapping, the driver's `KernelWorkControl(...)` call raises `TypeError` —
`role_ping_per_ch_id` is a required positional parameter of
`KernelWorkControl.__init__` that the update call site never passes — so
controller construction fails, no kernel is launched, no progress message is
created and the registry is untouched, instead of running the update across
the known mappings as the claim states. -/
theorem C4_update_driver_type_error (msgs : List (Nat × Nat))
    (r : KernelWorkControlRegistry) (h : msgs ≠ []) :
    (message_update_repeater_impl msgs r).result
        = .raisedTypeError (update_targets_of_mappings msgs) ∧
    (message_update_repeater_impl msgs r).kernels_launched = [] ∧
    (message_update_repeater_impl msgs r).progress_message_created = false ∧
    (message_update_repeater_impl msgs r).registry = r := by
  cases msgs with
  | nil => exact absurd rfl h
  | cons a l => exact ⟨rfl, rfl, rfl, rfl⟩

/-- Witness for C4 at a single mapping (destination message 10 in channel 5). -/
theorem C4_update_driver_type_error_witness :
    ([((10 : Nat), (5 : Nat))] ≠ []) ∧
    (message_update_repeater_impl [(10, 5)] []).result
      = .raisedTypeError (update_targets_of_mappings [(10, 5)]) :=
  ⟨by decide, (C4_update_driver_type_error [(10, 5)] [] (by decide)).1⟩

/-- C2: the claim that every kernel converts every internal exception into
exactly one tracker report is refuted by the delete kernel: when the fetch of
the destination message raises, the `except` handler evaluates
`dest_msg.channel_id` with `dest_msg` unbound, so an `UnboundLocalError`
escapes the kernel boundary and zero terminal reports are made. -/
theorem C2_counterexample :
    (message_delete_kernel (.error .notFound) (.ok ()) c2_t 3 4).outcome
        = .escaped .nameError ∧
    reports_terminal (message_delete_kernel (.error .notFound) (.ok ()) c2_t 3 4).events
        = 0 := by
  decide

/-- C2 (amended): for a target channel that is a tracked target and not
currently scheduled, the send kernel and the update kernel return normally on
*every* combination of platform-call outcomes, making exactly one terminal
report (one `report_failure` on any exception in the `try` body, one
`report_completed` on success); the delete kernel satisfies the same property
only when the fetch of the destination message succeeds — when the fetch
raises, the handler itself raises past the kernel boundary. -/
theorem C2_kernel_boundary (t : KernelWorkTracker) (ch msg : Nat)
    (fr : Except PlatformError FetchedChannel) (sr : Except PlatformError FetchedMessage)
    (fm : Except PlatformError FetchedMessage) (er : Except PlatformError Unit)
    (dm : FetchedMessage) (dr : Except PlatformError Unit)
    (hsch : dcontains t.scheduled ch = false)
    (htr : dcontains t.tries ch = true) :
    ((message_create_kernel fr sr t ch).outcome = .normal ∧
      reports_terminal (message_create_kernel fr sr t ch).events = 1) ∧
    ((message_update_kernel fm er t ch msg).outcome = .normal ∧
      reports_terminal (message_update_kernel fm er t ch msg).events = 1) ∧
    (dm.channel_id = ch →
      (message_delete_kernel (.ok dm) dr t ch msg).outcome = .normal ∧
      reports_terminal (message_delete_kernel (.ok dm) dr t ch msg).events = 1) := by
  rcases Option.isSome_iff_exists.mp htr with ⟨n, hn⟩
  have hs2 : ∀ m : Option Nat, dcontains (dset t.scheduled ch m) ch = true := by
    intro m
    simp [dcontains, dget?_dset_self]
  refine ⟨?_, ?_, ?_⟩
  · rcases fr with e | chan
    · simp [message_create_kernel, report_scheduled, hsch, kernel_fail_path,
        report_failure, report_try, hn, hs2,
        reports_terminal, ReportEvent.isTerminal]
    · by_cases htx : chan.textable
      · rcases sr with e2 | mm
        · simp [message_create_kernel, report_scheduled, hsch, kernel_fail_path,
            report_failure, report_try, hn, hs2, htx,
            reports_terminal, ReportEvent.isTerminal]
        · simp [message_create_kernel, report_scheduled, hsch, kernel_complete_path,
            report_completed, report_try, hn, hs2, htx,
            reports_terminal, ReportEvent.isTerminal]
      · simp [message_create_kernel, report_scheduled, hsch, kernel_fail_path,
          report_failure, report_try, hn, hs2, htx,
          reports_terminal, ReportEvent.isTerminal]
  · rcases fm with e | mm
    · simp [message_update_kernel, report_scheduled, hsch, kernel_fail_path,
        report_failure, report_try, hn, hs2,
        reports_terminal, ReportEvent.isTerminal]
    · rcases er with e2 | u
      · simp [message_update_kernel, report_scheduled, hsch, kernel_fail_path,
          report_failure, report_try, hn, hs2,
          reports_terminal, ReportEvent.isTerminal]
      · simp [message_update_kernel, report_scheduled, hsch, kernel_complete_path,
          report_completed, report_try, hn, hs2,
          reports_terminal, ReportEvent.isTerminal]
  · intro hm
    subst hm
    rcases dr with e | u
    · simp [message_delete_kernel, report_scheduled, hsch, kernel_fail_path,
        report_failure, report_try, hn, hs2,
        reports_terminal, ReportEvent.isTerminal]
    · simp [message_delete_kernel, report_scheduled, hsch, kernel_complete_path,
        report_completed, report_try, hn, hs2,
        reports_terminal, ReportEvent.isTerminal]

/-- Witness for the amended C2 at a fresh single-target send tracker. -/
theorem C2_kernel_boundary_witness :
    dcontains c10_t.scheduled 7 = false ∧ dcontains c10_t.tries 7 = true ∧
    (message_create_kernel (.error .transient)
      (.ok ⟨50, 7⟩) c10_t 7).outcome = .normal :=
  ⟨by decide, by decide,
    ((C2_kernel_boundary c10_t 7 60 (.error .transient) (.ok ⟨50, 7⟩)
      (.ok ⟨60, 7⟩) (.ok ()) ⟨60, 7⟩ (.ok ()) (by decide) (by decide)).1).1⟩

/-- C3: the claim that a Delete-kernel invocation against an absent
destination message (fetch raises NotFound) calls `report_completed` is
refuted: the invocation records no success at all and instead escapes with an
`UnboundLocalError` from the `except` handler. -/
theorem C3_counterexample :
    dcontains (successful_targets
      ((message_delete_kernel (.error .notFound) (.ok ()) c3_t 5 6).tracker)) 5
        = false ∧
    (message_delete_kernel (.error .notFound) (.ok ()) c3_t 5 6).outcome
      = .escaped .nameError := by
  decide

/-- C3 (amended): when the fetch of the destination message raises NotFound,
one invocation of the Delete kernel makes no terminal report at all — neither
`report_completed` nor `report_failure` — leaves the success map and the
attempt counters untouched, and raises `UnboundLocalError` (the `except`
handler reads the unbound `dest_msg`) past the kernel boundary.  Absence of
the destination message is not treated as success. -/
theorem C3_delete_absent_message (t : KernelWorkTracker) (ch msg : Nat)
    (dr : Except PlatformError Unit)
    (hsch : dcontains t.scheduled ch = false) :
    (message_delete_kernel (.error .notFound) dr t ch msg).outcome
        = .escaped .nameError ∧
    (message_delete_kernel (.error .notFound) dr t ch msg).events
        = [.scheduledEv ch] ∧
    ((message_delete_kernel (.error .notFound) dr t ch msg).tracker).completed_successfully
        = t.completed_successfully ∧
    ((message_delete_kernel (.error .notFound) dr t ch msg).tracker).tries = t.tries := by
  simp [message_delete_kernel, report_scheduled, hsch]

/-- Witness for the amended C3 at the concrete delete tracker. -/
theorem C3_delete_absent_message_witness :
    dcontains c3_t.scheduled 5 = false ∧
    (message_delete_kernel (.error .notFound) (.error .forbidden) c3_t 5 6).outcome
      = .escaped .nameError :=
  ⟨by decide,
    (C3_delete_absent_message c3_t 5 6 (.error .forbidden) (by decide)).1⟩
